import Mathlib

/-
Verification of the pending-operation reconciliation engine of the
ComfyUI-Nuvu repository (src/prestartup_script.py and src/pre_launch.py).

The Python code is shallowly embedded: pure string manipulation is
translated to Lean functions over String and List Char; external effects
(subprocess runs, filesystem listings, pip-show presence checks) become
explicit oracle parameters recording the outcome the environment would
produce, and each engine step becomes a pure function from those oracles to
the list of actions it issues plus its observable results (marker deleted
or kept, boolean return values).

All strings handled by the engine are ASCII command output and package
specifiers; Char.toLower therefore coincides with the Python str.lower on
the modelled inputs.
-/

namespace Nuvu

/-! ## Basic string helpers (models of the Python primitives used) -/

/-- Model of Python str.isspace for the characters str.strip removes. -/
def isPyWs (c : Char) : Bool :=
  c == ' ' || c == '\t' || c == '\n' || c == '\r' || c == '\x0b' || c == '\x0c'

/-- Model of Python str.strip (no arguments): drop whitespace on both ends. -/
def stripStr (s : String) : String :=
  String.mk (((s.data.dropWhile isPyWs).reverse.dropWhile isPyWs).reverse)

/-- Model of Python str.lower on ASCII text. -/
def lowerStr (s : String) : String :=
  String.mk (s.data.map Char.toLower)

/-- Boolean list-prefix test used by the substring and startswith models. -/
def charsPrefixEq : List Char → List Char → Bool
  | [], _ => true
  | _ :: _, [] => false
  | a :: as, b :: bs => a == b && charsPrefixEq as bs

/-- Boolean infix (substring) test over character lists. -/
def charsContain (pat : List Char) : List Char → Bool
  | [] => charsPrefixEq pat []
  | s@(_ :: rest) => charsPrefixEq pat s || charsContain pat rest

/-- Model of the Python operator (pat in s) on strings. -/
def containsStr (s pat : String) : Bool :=
  charsContain pat.data s.data

/-- Model of Python str.startswith. -/
def startsWithStr (s pat : String) : Bool :=
  charsPrefixEq pat.data s.data

/-- Model of Python s.split(sep) for a one-character separator: always
returns at least one (possibly empty) piece. -/
def splitOnCharAux (sep : Char) (cur : List Char) : List Char → List String
  | [] => [String.mk cur.reverse]
  | c :: rest =>
    if c == sep then String.mk cur.reverse :: splitOnCharAux sep [] rest
    else splitOnCharAux sep (c :: cur) rest

/-- Model of Python s.split(sep) for a one-character separator. -/
def splitOnChar (sep : Char) (s : String) : List String :=
  splitOnCharAux sep [] s.data

/-- The part of s before the first occurrence of sep; the whole of s when
sep is absent.  Models Python s.split(sep)[0]. -/
def takeUntilChar (s : String) (sep : Char) : String :=
  String.mk (s.data.takeWhile (fun c => !(c == sep)))

/-- Whitespace tokenizer.  Models shlex.split restricted to marker payloads
that contain no quote, backslash or comment characters, where shlex.split
coincides with splitting on runs of whitespace. -/
def splitWsAux (cur : List Char) : List Char → List String
  | [] => if cur.isEmpty then [] else [String.mk cur.reverse]
  | c :: rest =>
    if isPyWs c then
      if cur.isEmpty then splitWsAux [] rest
      else String.mk cur.reverse :: splitWsAux [] rest
    else splitWsAux (c :: cur) rest

/-- Whitespace tokenizer entry point. -/
def splitWs (s : String) : List String :=
  splitWsAux [] s.data

/-! ## Requirement-line parser

Model of parse_requirement (src/pre_launch.py lines 547-573) which is
textually identical to the internal variant in src/prestartup_script.py
lines 1397-1423. -/

/-- Character class of the first regex group: [a-zA-Z0-9_-]. -/
def isReqNameChar (c : Char) : Bool :=
  c.isAlpha || c.isDigit || c == '_' || c == '-'

/-- Model of the optional second regex group: a bracketed extras segment
with at least one character that is not a closing bracket.  Returns the
remainder after the group, or the input unchanged when the group does not
match (the group is optional). -/
def dropExtrasGroup : List Char → List Char
  | '[' :: t =>
    let inner := t.takeWhile (fun c => !(c == ']'))
    let after := t.dropWhile (fun c => !(c == ']'))
    match after, inner with
    | ']' :: tail, _ :: _ => tail
    | _, _ => '[' :: t
  | r => r

/-- Model of parse_requirement: maps a requirement line to the pair of
package name and version specifier, or none for comments, blank lines,
option lines, and lines holding URLs.  Environment markers after a
semicolon are cut off before the name and specifier are extracted. -/
def parse_requirement (line : String) : Option (String × String) :=
  let l := stripStr line
  if l = "" then none
  else if startsWithStr l "#" then none
  else if startsWithStr l "-" || containsStr l "://" then none
  else
    let l := if containsStr l ";" then stripStr (takeUntilChar l ';') else l
    let name := l.data.takeWhile isReqNameChar
    if name.isEmpty then none
    else
      let rest := l.data.dropWhile isReqNameChar
      some (String.mk name, stripStr (String.mk (dropExtrasGroup rest)))

example : parse_requirement "numpy>=1.24.0  ; platform_system == 'Windows'"
    = some ("numpy", ">=1.24.0") := by decide

example : parse_requirement "-e git+https://example.com/repo.git" = none := by decide

example : parse_requirement "# comment" = none := by decide

example : parse_requirement "" = none := by decide

/-! ## Version constraints -/

/-- The comparator character class [<>=!] shared by the constraint regexes
and by the splitter inside extract_package_names. -/
def isCompChar (c : Char) : Bool :=
  c == '<' || c == '>' || c == '=' || c == '!'

/-- Model of the full-string regex match on a leading comparator run
followed by at least one further character.  The regex is greedy on the
comparator run but backtracks by one character when nothing would remain
for the second group; inputs are newline free.  Returns the comparator and
the remainder, or none when the string does not open with a comparator
character or consists of a single one. -/
def matchConstraint (c : String) : Option (String × String) :=
  let run := c.data.takeWhile isCompChar
  let rest := c.data.dropWhile isCompChar
  if run.isEmpty then none
  else if rest.isEmpty then
    match run.reverse with
    | [] => none
    | [_] => none
    | last :: front => some (String.mk front.reverse, String.mk [last])
  else some (String.mk run, String.mk rest)

/-- Numeric value of a digit run. -/
def natOfDigits (ds : List Char) : Nat :=
  ds.foldl (fun acc d => 10 * acc + (d.toNat - '0'.toNat)) 0

/-- Model of the leading-digit extraction inside the prestartup
parse_version helper: the value of the longest digit run opening the
component, and 0 when the component opens with a non-digit or is empty. -/
def leadingNat (s : String) : Nat :=
  let digits := s.data.takeWhile Char.isDigit
  if digits.isEmpty then 0 else natOfDigits digits

/-- Model of the prestartup parse_version helper: split on dots and map
every component to its leading numeric value (0 for non-numeric parts). -/
def parseVersionParts (v : String) : List Nat :=
  (splitOnChar '.' v).map leadingNat

/-- Lexicographic strict order on Nat lists; matches the Python tuple
order, where an exhausted left tuple that is a proper starting segment of
the right one counts as smaller. -/
def lexLtNat : List Nat → List Nat → Bool
  | [], [] => false
  | [], _ :: _ => true
  | _ :: _, [] => false
  | a :: as, b :: bs => a < b || (a == b && lexLtNat as bs)

/-- Non-strict companion of lexLtNat, as Python derives <= on tuples. -/
def lexLeNat (a b : List Nat) : Bool :=
  lexLtNat a b || a == b

/-- Model of _version_satisfies_constraint
(src/prestartup_script.py lines 1018-1063).  An empty installed version
returns false up front; a constraint with no comparator returns true; every
other path compares the parsed tuples, and an unrecognized comparator
returns true.  The except branch of the source is unreachable because no
step of the translated body can raise. -/
def version_satisfies_constraint (installedVersion constraint : String) : Bool :=
  if installedVersion = "" then false
  else
    match matchConstraint constraint with
    | none => true
    | some (op, required) =>
      let iv := parseVersionParts installedVersion
      let rv := parseVersionParts required
      if op = "<" then lexLtNat iv rv
      else if op = "<=" then lexLeNat iv rv
      else if op = ">" then lexLtNat rv iv
      else if op = ">=" then lexLeNat rv iv
      else if op = "==" then iv == rv
      else if op = "!=" then !(iv == rv)
      else true

/-- Lexicographic strict order on Int lists (Python list order). -/
def lexLtInt : List Int → List Int → Bool
  | [], [] => false
  | [], _ :: _ => true
  | _ :: _, [] => false
  | a :: as, b :: bs => a < b || (a == b && lexLtInt as bs)

/-- Non-strict companion of lexLtInt. -/
def lexLeInt (a b : List Int) : Bool :=
  lexLtInt a b || a == b

/-- Digit-run value as an option: some only when the run is non-empty and
covers the whole input. -/
def natFromAllDigits (ds : List Char) : Option Nat :=
  if ds.isEmpty then none
  else if ds.all Char.isDigit then some (natOfDigits ds) else none

/-- Model of Python int(x) on the version components the engine feeds it:
surrounding whitespace is dropped, one optional sign is accepted, and the
remainder must be a non-empty digit run (digit-group underscores do not
occur in the modelled inputs). -/
def pyInt (s : String) : Option Int :=
  match (stripStr s).data with
  | '+' :: ds => (natFromAllDigits ds).map Int.ofNat
  | '-' :: ds => (natFromAllDigits ds).map (fun n => -(Int.ofNat n))
  | ds => (natFromAllDigits ds).map Int.ofNat

/-- Model of the list comprehension in the pre-launch fallback comparison:
take the part of the version before the first plus sign, split the rest on
dots, and convert every component with int; none when any component fails,
which the source turns into the permissive true result. -/
def pyIntParts (v : String) : Option (List Int) :=
  (splitOnChar '.' (takeUntilChar v '+')).foldr
    (fun c acc =>
      match pyInt c, acc with
      | some n, some l => some (n :: l)
      | _, _ => none)
    (some [])

/-- Model of version_satisfies (src/pre_launch.py lines 585-633), the
fallback path taken when the packaging library is unavailable or raises.
The leading falsy guard runs before the packaging attempt, so its results
hold in every environment.  A None installed version maps to none, the
Python empty string to some with an empty string. -/
def version_satisfies (installedVersion : Option String) (versionSpec : String) : Bool :=
  let falsyInstalled :=
    match installedVersion with
    | none => true
    | some s => s = ""
  if versionSpec = "" || falsyInstalled then
    match installedVersion with
    | none => false
    | some _ => true
  else
    match installedVersion with
    | none => false
    | some inst =>
      match matchConstraint versionSpec with
      | none => true
      | some (op, required) =>
        match pyIntParts inst, pyIntParts required with
        | some ip, some rp =>
          let m := max ip.length rp.length
          let ipad := ip ++ List.replicate (m - ip.length) 0
          let rpad := rp ++ List.replicate (m - rp.length) 0
          if op = "==" then ipad == rpad
          else if op = ">=" then lexLeInt rpad ipad
          else if op = "<=" then lexLeInt ipad rpad
          else if op = ">" then lexLtInt rpad ipad
          else if op = "<" then lexLtInt ipad rpad
          else if op = "!=" then !(ipad == rpad)
          else true
        | _, _ => true

example : version_satisfies_constraint "0.34.0" "<1.0" = true := by decide

example : version_satisfies_constraint "1.0" "<1.0" = false := by decide

example : version_satisfies_constraint "" "<1.0" = false := by decide

example : version_satisfies_constraint "abc" ">=1.0" = false := by decide

example : version_satisfies (some "") "<1.0" = true := by decide

example : version_satisfies (some "abc") ">=1.0" = true := by decide

example : version_satisfies (some "1.2.3") ">=1.2" = true := by decide

/-! ## Package-name extraction from an install specifier

Model of _extract_package_names (src/prestartup_script.py lines 656-687),
textually identical to extract_package_names in src/pre_launch.py lines
250-272. -/

/-- Worker of the extraction loop; the boolean is the skip_next state that
consumes the value of a flag known to take one.  The -f entry of the
value-flag list is kept from the source although it is unreachable there,
because -f does not open with two dashes. -/
def extractPkgNamesAux : Bool → List String → List String
  | _, [] => []
  | true, _ :: rest => extractPkgNamesAux false rest
  | false, p :: rest =>
    if startsWithStr p "--" then
      if p = "--index-url" || p = "--extra-index-url" || p = "--find-links" || p = "-f" then
        extractPkgNamesAux true rest
      else extractPkgNamesAux false rest
    else if startsWithStr p "-" then extractPkgNamesAux false rest
    else
      let name := String.mk (p.data.takeWhile (fun c => !(isCompChar c)))
      if name = "" then extractPkgNamesAux false rest
      else name :: extractPkgNamesAux false rest

/-- Model of _extract_package_names: the package names of a tokenized
install specifier, with flags and their values removed and version
constraints cut at the first comparator character. -/
def extract_package_names (parts : List String) : List String :=
  extractPkgNamesAux false parts

example : extract_package_names (splitWs "pkgA==2.0") = ["pkgA"] := by decide

example : extract_package_names (splitWs "--pre torch==2.1 --extra-index-url https://x torchvision")
    = ["torch", "torchvision"] := by decide

/-! ## Pending install markers

Model of the per-marker body of _run_pending_installs
(src/prestartup_script.py lines 690-791); run_pending_installs in
src/pre_launch.py lines 372-460 differs only in logging, in the torch-index
bookkeeping, and in also deleting the marker on a generic exception. -/

/-- Outcome of one external command run: an exit code, or the timeout
expiry that subprocess.run raises. -/
inductive RunOutcome
  | exit (code : Nat)
  | timeout
deriving DecidableEq, Repr

/-- One action issued while draining a pending install marker. -/
inductive PendingAction
  | runUninstall (names : List String)
  | forceDelete (name : String)
  | runInstall (args : List String)
deriving DecidableEq, Repr

/-- Environment oracle for one pending install marker: the outcome of the
clean-slate uninstall command, whether force deletion of a given name
reports a removal, and the outcome of the install command. -/
structure InstallOracle where
  uninstallOutcome : RunOutcome
  forceDeleteReturns : String → Bool
  installOutcome : RunOutcome

/-- Translation applied to the tokenized specifier before the install
command: the fast backend spells force-reinstall as reinstall. -/
def translateSpecParts (useUv : Bool) (parts : List String) : List String :=
  if useUv then parts.map (fun p => if p = "--force-reinstall" then "--reinstall" else p)
  else parts

/-- Model of one iteration of the _run_pending_installs loop.  Returns the
actions issued and whether the marker file is deleted.  An empty payload
deletes the marker at once.  A timeout of the uninstall command raises,
reaching the handler that deletes the marker before the install command is
built; every other path reaches the install step and then deletes the
marker whatever the install outcome, timeout included. -/
def processInstallMarker (useUv : Bool) (payload : String) (o : InstallOracle) :
    List PendingAction × Bool :=
  let spec := stripStr payload
  if spec = "" then ([], true)
  else
    let parts := splitWs spec
    let names := extract_package_names parts
    let installActs := [PendingAction.runInstall (translateSpecParts useUv parts)]
    if names.isEmpty then
      match o.installOutcome with
      | .timeout => (installActs, true)
      | .exit _ => (installActs, true)
    else
      match o.uninstallOutcome with
      | .timeout => ([PendingAction.runUninstall names], true)
      | .exit c =>
        let cleanup :=
          PendingAction.runUninstall names ::
            (if c = 0 then [] else names.map PendingAction.forceDelete)
        match o.installOutcome with
        | .timeout => (cleanup ++ installActs, true)
        | .exit _ => (cleanup ++ installActs, true)

example :
    processInstallMarker false "pkgA==2.0"
      ⟨RunOutcome.exit 0, fun _ => false, RunOutcome.exit 0⟩
    = ([PendingAction.runUninstall ["pkgA"], PendingAction.runInstall ["pkgA==2.0"]], true) := by
  decide

/-! ## Forced deletion

Model of _force_delete_package (src/prestartup_script.py lines 507-553),
textually identical in matching behaviour to force_delete_package in
src/pre_launch.py lines 283-318. -/

/-- Normalization applied to the target name and to every listed entry:
lower-case the text and fold hyphens to underscores.  The source lowers
first and replaces afterwards; the two commute because the hyphen has no
case. -/
def normalizePkg (s : String) : String :=
  String.mk (s.data.map (fun c => if c == '-' then '_' else c.toLower))

/-- Model of the metadata-directory test: the normalized entry opens with
the normalized name, an underscore and a digit, and carries a dist-info or
egg-info tag.  After hyphen folding the hyphen-spelled tags can no longer
occur in the normalized entry; the source keeps the checks and so does the
model. -/
def isMetadataDirNam (n il : String) : Bool :=
  startsWithStr il (n ++ "_")
    && (match il.data.drop (n.length + 1) with
        | c :: _ => c.isDigit
        | [] => false)
    && (containsStr il "dist_info" || containsStr il "dist-info"
        || containsStr il "egg_info" || containsStr il "egg-info")

/-- Whether a directory entry is claimed by the force deletion of the
given package: exact normalized-name equality, or the metadata-directory
pattern. -/
def forceDeleteMatches (pkgName item : String) : Bool :=
  let n := normalizePkg pkgName
  let il := normalizePkg item
  il == n || isMetadataDirNam n il

/-- A listed entry of a site-packages directory: its name and whether it is
a directory (only directories are removed and counted). -/
structure FsEntry where
  name : String
  isDir : Bool
deriving DecidableEq, Repr

/-- Model of _force_delete_package over the listings of the known package
directories: true exactly when some matching entry is a directory.  The
recursive removal runs with errors ignored, so the source boolean tracks
the matching directories it sweeps, not the success of each removal; the
model treats each swept directory as deleted. -/
def force_delete_package (pkgName : String) (dirs : List (List FsEntry)) : Bool :=
  dirs.any fun d => d.any fun e => forceDeleteMatches pkgName e.name && e.isDir

example : forceDeleteMatches "foo-bar" "foo_bar" = true := by decide
example : forceDeleteMatches "foo-bar" "foo_bar_2.1.dist_info" = true := by decide
example : forceDeleteMatches "foo-bar" "foo_barbaz" = false := by decide

/-! ## Pending uninstall markers

Model of the per-marker body of _run_pending_uninstalls
(src/prestartup_script.py lines 556-645) and of its pre-launch counterpart
run_pending_uninstalls (src/pre_launch.py lines 321-369). -/

/-- Environment oracle for one pending uninstall marker: whether pip show
reports a package as present after the failed uninstall, whether force
deletion reports a removal, and whether the verification pip show after a
force deletion still reports the package. -/
structure UninstallOracle where
  present : String → Bool
  forceDeleteReturns : String → Bool
  presentAfterForce : String → Bool

/-- Per-package step of the non-zero-exit branch.  Returns whether a force
deletion was attempted for the package and whether the package counts as
confirmed gone.  Force deletion is attempted only when the package is still
present and the command output indicated a missing RECORD file; the package
counts gone when absent up front, or when the force deletion reported a
removal and the verification no longer shows it. -/
def uninstallPkgStep (recordErr : Bool) (o : UninstallOracle) (pkg : String) : Bool × Bool :=
  if o.present pkg then
    if recordErr then
      if o.forceDeleteReturns pkg && !(o.presentAfterForce pkg) then (true, true)
      else (true, false)
    else (false, false)
  else (false, true)

/-- Observable result of draining one pending uninstall marker. -/
structure UninstallMarkerResult where
  presenceChecked : List String
  forceAttempted : List String
  stillInstalled : List String
  markerDeleted : Bool
deriving DecidableEq, Repr

/-- Model of the is_record_error test on the combined command output: the
output holds the uppercase RECORD and, lowered, the words not found. -/
def recordErrOf (output : String) : Bool :=
  containsStr output "RECORD" && containsStr (lowerStr output) "not found"

/-- The per-package steps of the non-zero-exit branch, keyed by package. -/
def uninstallSteps (recordErr : Bool) (o : UninstallOracle) (packages : List String) :
    List (String × (Bool × Bool)) :=
  packages.map (fun p => (p, uninstallPkgStep recordErr o p))

/-- Model of one iteration of the prestartup _run_pending_uninstalls loop
over an already parsed marker payload (the non-blank package names).  An
empty payload deletes the marker.  A zero exit deletes it.  A timeout
raises into the per-marker handler, which only logs, so the marker stays.
On a non-zero exit every package is re-checked with pip show; the marker is
deleted exactly when all of them count as confirmed gone. -/
def processUninstallMarker (packages : List String) (outcome : RunOutcome)
    (output : String) (o : UninstallOracle) : UninstallMarkerResult :=
  if packages.isEmpty then ⟨[], [], [], true⟩
  else
    match outcome with
    | .timeout => ⟨[], [], [], false⟩
    | .exit 0 => ⟨[], [], [], true⟩
    | .exit (_ + 1) =>
      let steps := uninstallSteps (recordErrOf output) o packages
      { presenceChecked := packages
        forceAttempted := (steps.filter (fun r => r.2.1)).map (fun r => r.1)
        stillInstalled := (steps.filter (fun r => !r.2.2)).map (fun r => r.1)
        markerDeleted := steps.all (fun r => r.2.2) }

/-- Model of one iteration of the pre-launch run_pending_uninstalls loop
(src/pre_launch.py lines 336-369).  The payload is read as one package
name.  A non-zero exit triggers an immediate force deletion with no
re-verification; a timeout raises into the handler, which also removes the
marker.  Every path deletes the marker.  Returns the force deletions issued
and whether the marker is deleted. -/
def preLaunchUninstallMarker (payload : String) (outcome : RunOutcome) :
    List String × Bool :=
  let name := stripStr payload
  if name = "" then ([], true)
  else
    match outcome with
    | .timeout => ([], true)
    | .exit 0 => ([], true)
    | .exit (_ + 1) => ([name], true)

example :
    processUninstallMarker ["pkga"] (RunOutcome.exit 1) "some failure"
      ⟨fun _ => true, fun _ => true, fun _ => false⟩
    = ⟨["pkga"], [], ["pkga"], false⟩ := by decide

example :
    processUninstallMarker ["pkga"] (RunOutcome.exit 1)
      "ERROR: RECORD file Not Found for pkga"
      ⟨fun _ => true, fun _ => true, fun _ => false⟩
    = ⟨["pkga"], ["pkga"], [], true⟩ := by decide

/-! ## Critical-package enforcement

Model of the per-entry body of _ensure_critical_packages
(src/prestartup_script.py lines 1157-1212). -/

/-- One entry of the CRITICAL_PACKAGES table. -/
structure CriticalPackage where
  pipName : String
  spec : String
  descr : String
  forceVersion : Bool
deriving DecidableEq, Repr

/-- The CRITICAL_PACKAGES table (src/prestartup_script.py lines 854-861). -/
def CRITICAL_PACKAGES : List CriticalPackage :=
  [⟨"Pillow", "pillow", "Pillow", false⟩,
   ⟨"huggingface_hub", "huggingface_hub<1.0", "HuggingFace Hub", true⟩]

/-- Model of the search for a trailing constraint in the install specifier:
the suffix from the first comparator character onward, provided at least
one character follows it; the search moves on past a comparator character
sitting at the very end, after which nothing is left to match. -/
def extractConstraintAux : List Char → Option (List Char)
  | [] => none
  | c :: rest =>
    if isCompChar c then
      if rest.isEmpty then none else some (c :: rest)
    else extractConstraintAux rest

/-- Constraint part of an install specifier, as _ensure_critical_packages
extracts it. -/
def extractConstraint (spec : String) : Option String :=
  (extractConstraintAux spec.data).map String.mk

example : extractConstraint "huggingface_hub<1.0" = some "<1.0" := by decide
example : extractConstraint "pillow" = none := by decide

/-- One action issued while enforcing a critical package. -/
inductive CriticalAction
  | uninstallPkg (pipName : String)
  | installPkg (spec : String)
deriving DecidableEq, Repr

/-- Model of one iteration of the _ensure_critical_packages loop.  The
installed version and the conflict flag are the observations the two
verifier helpers would report for the current disk state; checkInstalled is
what _check_package_installed would report for the non-forced branch.  With
forceVersion and an extractable constraint, a set conflict flag forces
uninstall plus install before any version comparison; a clear flag with a
non-empty satisfying version skips; every other case uninstalls and
installs.  With forceVersion but no extractable constraint the entry is
installed without an uninstall; without forceVersion the entry is installed
exactly when the presence check fails. -/
def criticalStep (pipName spec : String) (forceVersion : Bool)
    (installedVersion : String) (hasConflicts checkInstalled : Bool) :
    List CriticalAction :=
  if forceVersion then
    match extractConstraint spec with
    | some c =>
      if hasConflicts then
        [CriticalAction.uninstallPkg pipName, CriticalAction.installPkg spec]
      else if !(installedVersion = "") && version_satisfies_constraint installedVersion c then
        []
      else
        [CriticalAction.uninstallPkg pipName, CriticalAction.installPkg spec]
    | none => [CriticalAction.installPkg spec]
  else if !checkInstalled then [CriticalAction.installPkg spec] else []

example :
    criticalStep "huggingface_hub" "huggingface_hub<1.0" true "0.34.0" true false
    = [CriticalAction.uninstallPkg "huggingface_hub",
       CriticalAction.installPkg "huggingface_hub<1.0"] := by decide

example :
    criticalStep "huggingface_hub" "huggingface_hub<1.0" true "0.34.0" false false
    = [] := by decide

/-! ## Backend selection for uninstall commands

Models of the command construction in _run_pending_uninstalls
(src/prestartup_script.py lines 588-595), which receives the resolved uv
path but never consults it, and of _get_pip_base together with the
uninstall command assembly in run_pending_uninstalls (src/pre_launch.py
lines 184-198 and 349-355). -/

/-- Model of the prestartup uninstall command: always the pip module of the
invoking interpreter, with the isolation flag in embedded installs; the
resolved fast-backend path is a parameter of the source function and is
ignored. -/
def prestartupUninstallCmd (_uvPath : Option String) (pyExe : String)
    (embedded : Bool) (packages : List String) : List String :=
  pyExe :: ((if embedded then ["-s"] else []) ++ ["-m", "pip", "uninstall", "-y"] ++ packages)

/-- Resolution state of the fast backend in the pre-launch script: usable
as a module of the invoking interpreter, usable as a standalone executable,
or unavailable. -/
inductive UvMode
  | module
  | standalone
  | unavailable
deriving DecidableEq, Repr

/-- Model of _get_pip_base: the command stem the pre-launch script hands to
every install and uninstall, depending on the resolved backend. -/
def preLaunchPipBase (pyExe uvExe : String) (embedded : Bool) : UvMode → List String
  | .module => pyExe :: ((if embedded then ["-s"] else []) ++ ["-m", "uv", "pip"])
  | .standalone => [uvExe, "pip"]
  | .unavailable => pyExe :: ((if embedded then ["-s"] else []) ++ ["-m", "pip"])

/-- Model of the uninstall command assembly in run_pending_uninstalls: on a
resolved fast backend the uninstall goes through it (with an interpreter
override for the standalone form in embedded installs); only when the fast
backend is unavailable does the command fall back to pip. -/
def preLaunchUninstallCmd (pyExe uvExe : String) (embedded : Bool)
    (mode : UvMode) (pkg : String) : List String :=
  match mode with
  | .module => preLaunchPipBase pyExe uvExe embedded .module ++ ["uninstall", "-y", pkg]
  | .standalone =>
    preLaunchPipBase pyExe uvExe embedded .standalone
      ++ ["uninstall"] ++ (if embedded then ["--python", pyExe] else []) ++ ["-y", pkg]
  | .unavailable => preLaunchPipBase pyExe uvExe embedded .unavailable ++ ["uninstall", "-y", pkg]

example :
    preLaunchUninstallCmd "python" "uvexe" false UvMode.module "triton"
    = ["python", "-m", "uv", "pip", "uninstall", "-y", "triton"] := by decide

/-! ## The critical-package uninstall helper

Model of _uninstall_package (src/prestartup_script.py lines 1066-1110). -/

/-- Outcome of one external command attempt, distinguishing a raised
exception (timeout included) from an exit code. -/
inductive RunAttempt
  | exit (code : Nat)
  | raised
deriving DecidableEq, Repr

/-- One action issued by _uninstall_package. -/
inductive UninstallAction
  | pipUninstallIsolated (pipName : String)
  | pipUninstallUser (pipName : String)
  | forceDeleteAct (pipName : String)
deriving DecidableEq, Repr

/-- Environment oracle for _uninstall_package: the outcome of the isolated
uninstall run in embedded installs, the outcome of the plain uninstall run,
and what force deletion would report. -/
structure UninstallPkgOracle where
  isolatedRun : RunAttempt
  plainRun : RunAttempt
  forceDeleteReturns : Bool

/-- Model of _uninstall_package.  In embedded installs it first uninstalls
with the isolation flag, swallowing any exception and ignoring the exit
code, then uninstalls from the user site; in both layouts a non-zero exit
or a raised exception of the plain run triggers force deletion.  The
function ends with an unconditional return of true. -/
def uninstall_package (embedded : Bool) (pipName : String) (o : UninstallPkgOracle) :
    List UninstallAction × Bool :=
  if embedded then
    let tail :=
      match o.plainRun with
      | .exit 0 => [UninstallAction.pipUninstallUser pipName]
      | .exit (_ + 1) =>
        [UninstallAction.pipUninstallUser pipName, UninstallAction.forceDeleteAct pipName]
      | .raised =>
        [UninstallAction.pipUninstallUser pipName, UninstallAction.forceDeleteAct pipName]
    (UninstallAction.pipUninstallIsolated pipName :: tail, true)
  else
    match o.plainRun with
    | .exit 0 => ([UninstallAction.pipUninstallUser pipName], true)
    | .exit (_ + 1) =>
      ([UninstallAction.pipUninstallUser pipName, UninstallAction.forceDeleteAct pipName], true)
    | .raised =>
      ([UninstallAction.pipUninstallUser pipName, UninstallAction.forceDeleteAct pipName], true)

/-! ## The full reconciliation pass

Model of the exception structure of the pass: the per-marker try blocks
inside the drain loops (src/prestartup_script.py lines 578-645 and 721-791,
src/pre_launch.py lines 339-369 and 392-460) and the outer handler around
the whole pass (the module-level try of src/prestartup_script.py lines
1555-1578 and main of src/pre_launch.py lines 719-739).  Exceptions are the
error values of the Except monad; the oracles say which steps raise. -/

/-- Environment of one reconciliation pass: the marker payloads of the two
drain stages, the per-marker processing outcome of each (ok, or a raised
exception), and the outcomes of the two later stages. -/
structure EngineEnv (μ : Type) where
  uninstallMarkers : List μ
  installMarkers : List μ
  processUninstall : μ → Except String Unit
  processInstall : μ → Except String Unit
  criticalStage : Except String Unit
  verifyStage : Except String Unit

/-- Drain loop with the per-marker try block: each iteration runs the
processing of its marker and continues to the next marker whether the
processing returned or raised.  Returns the markers that were handled. -/
def drainStage {μ : Type} (process : μ → Except String Unit) : List μ → List μ
  | [] => []
  | m :: ms =>
    match process m with
    | .ok _ => m :: drainStage process ms
    | .error _ => m :: drainStage process ms

/-- Body of the pass: both drain stages, then the critical-package stage,
then the requirements verification, sequenced in the exception monad. -/
def enginePassBody {μ : Type} (env : EngineEnv μ) : Except String (List μ × List μ) := do
  let u := drainStage env.processUninstall env.uninstallMarkers
  let i := drainStage env.processInstall env.installMarkers
  let _ ← env.criticalStage
  let _ ← env.verifyStage
  pure (u, i)

/-- The pass as the host observes it: the outer handler catches whatever
the body raises and logs it, so the call returns normally either way; the
payload records the drained markers when the body completed. -/
def enginePass {μ : Type} (env : EngineEnv μ) : Except String (Option (List μ × List μ)) :=
  match enginePassBody env with
  | .ok r => .ok (some r)
  | .error _ => .ok none

/-! ## Claim theorems -/

/-- C7: the requirement-line parser maps the Windows-marker numpy line to
the pair of numpy and its constraint, and maps the editable-URL line, the
comment line and the blank line to skip. -/
theorem c7_requirement_parsing :
    parse_requirement "numpy>=1.24.0  ; platform_system == 'Windows'"
      = some ("numpy", ">=1.24.0")
    ∧ parse_requirement "-e git+https://example.com/repo.git" = none
    ∧ parse_requirement "# comment" = none
    ∧ parse_requirement "" = none := by
  exact ⟨by decide, by decide, by decide, by decide⟩

/-- C2: whatever the environment does, draining a pending install marker
ends with the marker deleted: install success, non-zero exit and timeout
(of the clean-slate uninstall or of the install itself) all delete the
marker, so a failed pending install is not retried on the next pass. -/
theorem c2_install_marker_always_deleted :
    ∀ (useUv : Bool) (payload : String) (o : InstallOracle),
      (processInstallMarker useUv payload o).2 = true := by
  intro useUv payload o
  unfold processInstallMarker
  rcases o with ⟨uo, fd, io⟩
  by_cases hs : stripStr payload = "" <;>
    simp only [hs, if_pos, if_neg, ite_true, ite_false] <;>
    cases uo <;> cases io <;> repeat' split <;> rfl

/-- C3: when the tokenized payload of a pending install marker names at
least one package and the clean-slate uninstall command returns (with any
exit code), the action sequence opens with one uninstall of exactly those
names and closes with the install of the translated payload. -/
theorem c3_clean_slate_install :
    ∀ (useUv : Bool) (payload : String) (o : InstallOracle) (c : Nat),
      extract_package_names (splitWs (stripStr payload)) ≠ [] →
      o.uninstallOutcome = RunOutcome.exit c →
      ∃ mid,
        (processInstallMarker useUv payload o).1
          = PendingAction.runUninstall (extract_package_names (splitWs (stripStr payload)))
              :: mid
              ++ [PendingAction.runInstall (translateSpecParts useUv (splitWs (stripStr payload)))] := by
  intro useUv payload o c hn ho
  rcases o with ⟨uo, fd, io⟩
  simp only at ho
  subst ho
  by_cases hs : stripStr payload = ""
  · rw [hs] at hn
    exact absurd rfl hn
  · have hne : (extract_package_names (splitWs (stripStr payload))).isEmpty = false := by
      cases h : extract_package_names (splitWs (stripStr payload)) with
      | nil => exact absurd h hn
      | cons a l => rfl
    refine ⟨(if c = 0 then [] else
      (extract_package_names (splitWs (stripStr payload))).map PendingAction.forceDelete), ?_⟩
    unfold processInstallMarker
    simp only [hs, if_neg, ite_false, hne, Bool.false_eq_true]
    cases io <;> simp

/-- C10: the critical-package uninstall helper returns true on every path:
for both interpreter layouts and for every combination of exit codes,
raised exceptions and force-deletion outcomes, its boolean result is the
constant true and carries no information. -/
theorem c10_uninstall_returns_true :
    ∀ (embedded : Bool) (pipName : String) (o : UninstallPkgOracle),
      (uninstall_package embedded pipName o).2 = true := by
  intro embedded pipName o
  rcases o with ⟨ir, pr, fd⟩
  cases embedded <;> cases pr <;> try rfl
  all_goals rename_i code
  all_goals cases code <;> rfl

/-- C9: the reconciliation pass never propagates an exception to the host:
the outer handler turns every raising body into a normal return, and the
per-marker handlers make each drain stage handle every one of its markers
whatever any single marker processing raises, so later markers and later
stages still run. -/
theorem c9_never_raises :
    (∀ (μ : Type) (env : EngineEnv μ), ∃ r, enginePass env = Except.ok r)
    ∧ (∀ (μ : Type) (process : μ → Except String Unit) (ms : List μ),
        drainStage process ms = ms) := by
  constructor
  · intro μ env
    unfold enginePass
    cases enginePassBody env <;> exact ⟨_, rfl⟩
  · intro μ process ms
    induction ms with
    | nil => rfl
    | cons m ms ih =>
      unfold drainStage
      cases process m <;> simp [ih]

/-- C8: force deletion of the package foo-bar claims the entry foo_bar and
the metadata directory with the digit-led version tag, leaves the unrelated
entry foo_barbaz alone, and its boolean result is true exactly when some
claimed entry of some listed directory is a directory. -/
theorem c8_force_delete_scope :
    forceDeleteMatches "foo-bar" "foo_bar" = true
    ∧ forceDeleteMatches "foo-bar" "foo_bar_2.1.dist_info" = true
    ∧ forceDeleteMatches "foo-bar" "foo_barbaz" = false
    ∧ ∀ (dirs : List (List FsEntry)),
        (force_delete_package "foo-bar" dirs = true
          ↔ ∃ d ∈ dirs, ∃ e ∈ d, forceDeleteMatches "foo-bar" e.name = true ∧ e.isDir = true) := by
  refine ⟨by decide, by decide, by decide, ?_⟩
  intro dirs
  simp [force_delete_package, List.any_eq_true, Bool.and_eq_true]

/-- C3 witness: a marker for pkgA==2.0 with a clean uninstall exit issues
the uninstall of pkgA first and the install of pkgA==2.0 last. -/
theorem c3_clean_slate_install_witness :
    ∃ mid,
      (processInstallMarker false "pkgA==2.0"
          ⟨RunOutcome.exit 0, fun _ => false, RunOutcome.exit 0⟩).1
        = PendingAction.runUninstall ["pkgA"]
            :: mid ++ [PendingAction.runInstall ["pkgA==2.0"]] := by
  have h := c3_clean_slate_install false "pkgA==2.0"
    ⟨RunOutcome.exit 0, fun _ => false, RunOutcome.exit 0⟩ 0 (by decide) rfl
  simpa using h

/-- C4: for every critical package declared with the force-version flag
(whose specifier carries an extractable constraint), a set conflict flag
forces uninstall-then-install before any version comparison, a clear
conflict flag with a satisfying installed version skips, and a skip with a
clear conflict flag happens only when the installed version satisfies the
constraint. -/
theorem c4_conflict_precedence :
    ∀ p ∈ CRITICAL_PACKAGES, p.forceVersion = true →
      ∀ (c : String), extractConstraint p.spec = some c →
        ∀ (v : String) (chk : Bool),
          criticalStep p.pipName p.spec p.forceVersion v true chk
            = [CriticalAction.uninstallPkg p.pipName, CriticalAction.installPkg p.spec]
          ∧ (version_satisfies_constraint v c = true →
              criticalStep p.pipName p.spec p.forceVersion v false chk = [])
          ∧ (criticalStep p.pipName p.spec p.forceVersion v false chk = [] →
              version_satisfies_constraint v c = true) := by
  intro p _ hf c hc v chk
  have hv0 : version_satisfies_constraint "" c = false := by
    unfold version_satisfies_constraint
    simp
  refine ⟨?_, ?_, ?_⟩
  · unfold criticalStep
    rw [hf, hc]
    simp
  · intro hsat
    have hvne : ¬(v = "") := fun h => by rw [h, hv0] at hsat; exact Bool.false_ne_true hsat
    unfold criticalStep
    rw [hf, hc]
    simp [hvne, hsat]
  · intro hskip
    by_contra hns
    unfold criticalStep at hskip
    rw [hf, hc] at hskip
    by_cases hv : v = "" <;> simp [hv, hns] at hskip

/-- C4 witness: for the huggingface_hub entry, a version conflict forces
uninstall plus reinstall even though 0.34.0 satisfies the constraint below
1.0, and without a conflict the same satisfying version skips. -/
theorem c4_conflict_precedence_witness :
    criticalStep "huggingface_hub" "huggingface_hub<1.0" true "0.34.0" true false
      = [CriticalAction.uninstallPkg "huggingface_hub",
         CriticalAction.installPkg "huggingface_hub<1.0"]
    ∧ criticalStep "huggingface_hub" "huggingface_hub<1.0" true "0.34.0" false false = [] := by
  have h := c4_conflict_precedence
    ⟨"huggingface_hub", "huggingface_hub<1.0", "HuggingFace Hub", true⟩
    (by decide) rfl "<1.0" (by decide) "0.34.0" false
  exact ⟨h.1, h.2.1 (by decide)⟩

/-- C5 counterexample: with the fast backend resolved in module form, the
pre-launch drain-uninstalls stage runs the uninstall through uv, not
through the pip fallback it would use when uv is unavailable, refuting the
claim that the stage never uses the fast backend. -/
theorem c5_counterexample :
    preLaunchUninstallCmd "python" "uvexe" false UvMode.module "triton"
      = ["python", "-m", "uv", "pip", "uninstall", "-y", "triton"]
    ∧ "uv" ∈ preLaunchUninstallCmd "python" "uvexe" false UvMode.module "triton"
    ∧ preLaunchUninstallCmd "python" "uvexe" false UvMode.unavailable "triton"
      = ["python", "-m", "pip", "uninstall", "-y", "triton"] := by
  exact ⟨by decide, by decide, by decide⟩

/-- C5 amended: the prestartup drain-uninstalls command ignores the
resolved fast backend and is always the pip invocation of the invoking
interpreter, while the pre-launch drain-uninstalls command follows the
resolved backend: uv in module or standalone form when available, and only
in the unavailable case the same pip command the prestartup stage uses. -/
theorem c5_backend_amended :
    (∀ (uvPath uvPath2 : Option String) (pyExe : String) (embedded : Bool)
        (packages : List String),
        prestartupUninstallCmd uvPath pyExe embedded packages
          = prestartupUninstallCmd uvPath2 pyExe embedded packages)
    ∧ (∀ (uvPath : Option String) (pyExe : String) (embedded : Bool)
        (packages : List String),
        prestartupUninstallCmd uvPath pyExe embedded packages
          = pyExe :: ((if embedded then ["-s"] else [])
              ++ ["-m", "pip", "uninstall", "-y"] ++ packages))
    ∧ (∀ (pyExe uvExe : String) (embedded : Bool) (pkg : String),
        preLaunchUninstallCmd pyExe uvExe embedded UvMode.unavailable pkg
          = prestartupUninstallCmd none pyExe embedded [pkg]
        ∧ preLaunchUninstallCmd pyExe uvExe embedded UvMode.module pkg
          = pyExe :: ((if embedded then ["-s"] else [])
              ++ ["-m", "uv", "pip", "uninstall", "-y", pkg])
        ∧ preLaunchUninstallCmd pyExe uvExe embedded UvMode.standalone pkg
          = [uvExe, "pip", "uninstall"]
              ++ (if embedded then ["--python", pyExe] else []) ++ ["-y", pkg]) := by
  refine ⟨fun _ _ _ _ _ => rfl, fun _ _ _ _ => rfl, fun pyExe uvExe embedded pkg => ?_⟩
  refine ⟨?_, ?_, ?_⟩ <;>
    cases embedded <;>
    simp [preLaunchUninstallCmd, preLaunchPipBase, prestartupUninstallCmd]

/-- C6 counterexample: the prestartup satisfies check returns false, not
the claimed permissive true, when the installed version is empty or has no
numeric content, while the pre-launch fallback check returns true on the
same inputs. -/
theorem c6_counterexample :
    version_satisfies_constraint "" "<1.0" = false
    ∧ version_satisfies (some "") "<1.0" = true
    ∧ version_satisfies_constraint "abc" ">=1.0" = false
    ∧ version_satisfies (some "abc") ">=1.0" = true := by
  exact ⟨by decide, by decide, by decide, by decide⟩

/-- Comparator semantics written from the spec words, for comparison with
the source checks: numeric comparison of the parsed tuples per comparator,
with an unrecognized comparator counting as satisfied. -/
def specSatisfiesComparator (op : String) (iv rv : List Nat) : Bool :=
  if op = "<" then lexLtNat iv rv
  else if op = "<=" then lexLeNat iv rv
  else if op = ">" then lexLtNat rv iv
  else if op = ">=" then lexLeNat rv iv
  else if op = "==" then iv == rv
  else if op = "!=" then !(iv == rv)
  else true

/-- C6 amended: a constraint with no comparator is satisfied by every
non-empty version in the prestartup check; an empty version never satisfies
there; a parsed constraint is settled by the numeric comparator semantics
on the parsed tuples; and the pre-launch fallback check returns the
permissive true when the installed version has a component int cannot
parse. -/
theorem c6_satisfies_amended :
    ∀ (inst c : String),
      (matchConstraint c = none → inst ≠ "" → version_satisfies_constraint inst c = true)
      ∧ version_satisfies_constraint "" c = false
      ∧ (∀ (op req : String), matchConstraint c = some (op, req) → inst ≠ "" →
          version_satisfies_constraint inst c
            = specSatisfiesComparator op (parseVersionParts inst) (parseVersionParts req))
      ∧ (∀ (op req : String), matchConstraint c = some (op, req) → inst ≠ "" →
          pyIntParts inst = none → version_satisfies (some inst) c = true) := by
  intro inst c
  refine ⟨?_, ?_, ?_, ?_⟩
  · intro hm hi
    unfold version_satisfies_constraint
    rw [hm]
    simp [hi]
  · unfold version_satisfies_constraint
    simp
  · intro op req hm hi
    unfold version_satisfies_constraint specSatisfiesComparator
    rw [hm]
    simp [hi]
  · intro op req hm hi hp
    have hc : ¬(c = "") := by
      intro h
      rw [h] at hm
      exact Option.noConfusion hm
    unfold version_satisfies
    rw [hm]
    simp [hi, hc, hp]

/-- C6 amended witness: an unparsed constraint is satisfied, the empty
version never satisfies, a parsed constraint follows the comparator
semantics, and a non-numeric version is permissively accepted by the
pre-launch fallback check. -/
theorem c6_satisfies_amended_witness :
    version_satisfies_constraint "1.0" "abc" = true
    ∧ version_satisfies_constraint "" "<2" = false
    ∧ version_satisfies_constraint "1.0" "<2"
        = specSatisfiesComparator "<" (parseVersionParts "1.0") (parseVersionParts "2")
    ∧ version_satisfies (some "x.y") "<1" = true := by
  have h1 := c6_satisfies_amended "1.0" "abc"
  have h2 := c6_satisfies_amended "" "<2"
  have h3 := c6_satisfies_amended "1.0" "<2"
  have h4 := c6_satisfies_amended "x.y" "<1"
  exact ⟨h1.1 (by decide) (by decide), h2.2.1,
    h3.2.2.1 "<" "2" (by decide) (by decide),
    h4.2.2.2 "<" "1" (by decide) (by decide) (by decide)⟩

/-- A force deletion is attempted for a package exactly when it is still
present and the output signalled a missing RECORD file. -/
theorem uninstallPkgStep_fst (recordErr : Bool) (o : UninstallOracle) (p : String) :
    (uninstallPkgStep recordErr o p).1 = (o.present p && recordErr) := by
  unfold uninstallPkgStep
  by_cases h1 : o.present p <;> by_cases h2 : recordErr <;>
    simp [h1, h2] <;> split <;> rfl

/-- The packages whose step satisfies a test on the step value, read off
the keyed step list. -/
theorem uninstallSteps_filter_map (recordErr : Bool) (o : UninstallOracle)
    (q : Bool × Bool → Bool) :
    ∀ (ps : List String),
      (((uninstallSteps recordErr o ps).filter (fun r => q r.2)).map (fun r => r.1))
        = ps.filter (fun p => q (uninstallPkgStep recordErr o p)) := by
  intro ps
  induction ps with
  | nil => rfl
  | cons a l ih =>
    by_cases h : q (uninstallPkgStep recordErr o a) <;>
      simp [uninstallSteps, List.filter_cons, h] <;>
      simpa [uninstallSteps] using ih

/-- The all-gone flag of the step list coincides with the per-package
confirmed-gone test. -/
theorem uninstallSteps_all (recordErr : Bool) (o : UninstallOracle) (ps : List String) :
    (uninstallSteps recordErr o ps).all (fun r => r.2.2)
      = ps.all (fun p => (uninstallPkgStep recordErr o p).2) := by
  induction ps with
  | nil => rfl
  | cons a l ih => simp only [uninstallSteps, List.map_cons, List.all_cons] at ih ⊢; rw [ih]

/-- C1 counterexample: a marker for pkga whose uninstall exits 1 with an
output carrying no RECORD indicator leaves pkga still present yet attempts
no force deletion (the claim demands one for every still-present package),
and the pre-launch variant of the stage deletes the marker on the same
non-zero exit without verifying that the package is absent. -/
theorem c1_counterexample :
    processUninstallMarker ["pkga"] (RunOutcome.exit 1) "some failure"
        ⟨fun _ => true, fun _ => true, fun _ => false⟩
      = ⟨["pkga"], [], ["pkga"], false⟩
    ∧ (preLaunchUninstallMarker "pkga" (RunOutcome.exit 1)).2 = true := by
  exact ⟨by decide, by decide⟩

/-- C1 amended: on a non-zero uninstall exit the prestartup stage
re-checks the presence of every named package; it attempts force deletion
exactly for the still-present packages and only when the output signalled a
missing RECORD file; the marker is deleted precisely when every named
package counts as confirmed gone (absent up front, or force-deleted with a
clean re-verification); and when any package is left installed the marker
survives the pass. -/
theorem c1_uninstall_drain_amended :
    ∀ (packages : List String) (c : Nat) (output : String) (o : UninstallOracle),
      packages ≠ [] → c ≠ 0 →
      (processUninstallMarker packages (RunOutcome.exit c) output o).presenceChecked = packages
      ∧ (processUninstallMarker packages (RunOutcome.exit c) output o).forceAttempted
          = packages.filter (fun p => o.present p && recordErrOf output)
      ∧ ((processUninstallMarker packages (RunOutcome.exit c) output o).markerDeleted = true
          ↔ ∀ p ∈ packages, (uninstallPkgStep (recordErrOf output) o p).2 = true)
      ∧ ((processUninstallMarker packages (RunOutcome.exit c) output o).stillInstalled ≠ []
          → (processUninstallMarker packages (RunOutcome.exit c) output o).markerDeleted = false) := by
  intro packages c output o hne hc
  obtain ⟨k, rfl⟩ : ∃ k, c = k + 1 := ⟨c - 1, by omega⟩
  have hpe : packages.isEmpty = false := by
    cases packages with
    | nil => exact absurd rfl hne
    | cons a l => rfl
  have heq : processUninstallMarker packages (RunOutcome.exit (k + 1)) output o
      = { presenceChecked := packages
          forceAttempted :=
            ((uninstallSteps (recordErrOf output) o packages).filter
              (fun r => r.2.1)).map (fun r => r.1)
          stillInstalled :=
            ((uninstallSteps (recordErrOf output) o packages).filter
              (fun r => !r.2.2)).map (fun r => r.1)
          markerDeleted :=
            (uninstallSteps (recordErrOf output) o packages).all (fun r => r.2.2) } := by
    unfold processUninstallMarker
    simp [hpe]
  rw [heq]
  refine ⟨rfl, ?_, ?_, ?_⟩
  · rw [uninstallSteps_filter_map (recordErrOf output) o (fun r => r.1) packages]
    refine List.filter_congr ?_
    intro p _
    rw [uninstallPkgStep_fst]
  · rw [uninstallSteps_all]
    simp [List.all_eq_true]
  · intro hstill
    rw [uninstallSteps_filter_map (recordErrOf output) o (fun r => !r.2) packages] at hstill
    rw [uninstallSteps_all]
    by_contra hall
    rw [Bool.not_eq_false, List.all_eq_true] at hall
    refine hstill ?_
    rw [List.filter_eq_nil_iff]
    intro p hp
    simp [hall p hp]

/-- C1 amended witness: for a two-package marker failing with a RECORD
error, where pkga is still present (force deletion attempted, verification
clean) and pkgb was already gone, every package is re-checked, the force
deletion targets exactly pkga, and the marker is deleted. -/
theorem c1_uninstall_drain_amended_witness :
    (processUninstallMarker ["pkga", "pkgb"] (RunOutcome.exit 1)
        "RECORD file not found"
        ⟨fun p => p == "pkga", fun _ => true, fun _ => false⟩).presenceChecked
      = ["pkga", "pkgb"]
    ∧ (processUninstallMarker ["pkga", "pkgb"] (RunOutcome.exit 1)
        "RECORD file not found"
        ⟨fun p => p == "pkga", fun _ => true, fun _ => false⟩).forceAttempted
      = ["pkga"]
    ∧ (processUninstallMarker ["pkga", "pkgb"] (RunOutcome.exit 1)
        "RECORD file not found"
        ⟨fun p => p == "pkga", fun _ => true, fun _ => false⟩).markerDeleted = true := by
  have h := c1_uninstall_drain_amended ["pkga", "pkgb"] 1 "RECORD file not found"
    ⟨fun p => p == "pkga", fun _ => true, fun _ => false⟩ (by decide) (by decide)
  refine ⟨h.1, ?_, ?_⟩
  · rw [h.2.1]
    decide
  · rw [h.2.2.1]
    decide

end Nuvu
